import Mathlib

/-!
Verification development for the `specer` CLI (a SPEC CPU 2017 front-end).

This file gives a shallow embedding, in Lean, of the result-extraction and
configuration-synthesis core of the program:

* `src/specer/result_parser.py` — `parse_result_files` and `read_result_file`,
* `src/specer/utils.py` — `BENCHMARK_MAPPING`, `convert_benchmark_names`,
  `detect_suite_preference`, `generate_intel_config_additions`,
  `generate_config_from_template`, `build_runcpu_command`,

and proves the specification claims C1–C10 about those functions.

Modelling conventions:
* Python strings are Lean `String`s; the character-level work happens on
  `String.data : List Char` (the inputs of interest are ASCII).
* Python `float` values are modelled exactly: the program only parses and
  stores decimal tokens, it never computes with them, so every value is an
  exact decimal (`Dec`, with `Dec.toRat` its rational value).
* Python exceptions are modelled with `Except PyErr`; a `try/except` block
  becomes a `match` that maps `.error` to the handler's result.
* Filesystem / environment / subprocess effects are passed in explicitly as
  function-valued parameters (`exists?`, `readFile`, detection results, …).
* The regular expressions of the source use `*`/`+`/`*?`/`{3}` only over
  single character classes, so they are embedded with a small backtracking
  engine (`RE`) whose preference order (greedy/lazy, leftmost search,
  alternation order) mirrors Python's `re` module on these patterns.
  All patterns in the source are compiled with `re.IGNORECASE`, so literal
  characters compare case-insensitively.
-/

/-- Errors a modelled Python computation can raise.  The only exception the
source can actually raise inside the embedded fragments is `ValueError`
(from `float(...)` on a malformed numeric token). -/
inductive PyErr where
  | valueError
  deriving Repr, DecidableEq

/-! ## Python string primitives -/

/-- Characters treated as whitespace by Python's `str.strip()` / `str.split()`
and by the regex class `\s` (ASCII fragment). -/
def pyIsSpace (c : Char) : Bool :=
  c = ' ' || c = '\t' || c = '\n' || c = '\r' || c = '\x0b' || c = '\x0c'

/-- `str.strip()` on a character list. -/
def pyStripList (l : List Char) : List Char :=
  (((l.dropWhile pyIsSpace).reverse).dropWhile pyIsSpace).reverse

/-- `str.strip()`. -/
def pyStrip (s : String) : String :=
  ⟨pyStripList s.data⟩

/-- `str.split("\n")`: split on each newline character, keeping empty parts. -/
def splitOnNlList : List Char → List (List Char)
  | [] => [[]]
  | c :: rest =>
    let tail := splitOnNlList rest
    if c = '\n' then [] :: tail
    else
      match tail with
      | [] => [[c]]
      | h :: t => (c :: h) :: t

/-- `str.split()` (no argument): split on whitespace runs, dropping empties. -/
def pySplitWsList : List Char → List (List Char)
  | [] => []
  | c :: rest =>
    let tail := pySplitWsList rest
    if pyIsSpace c then tail
    else
      match rest with
      | [] => [[c]]
      | d :: _ =>
        if pyIsSpace d then [c] :: tail
        else
          match tail with
          | [] => [[c]]
          | h :: t => (c :: h) :: t

/-- ASCII lower-casing, as used for `str.lower()` on the program's inputs. -/
def pyLowerList (l : List Char) : List Char := l.map Char.toLower

/-- `str.lower()`. -/
def pyLower (s : String) : String := ⟨pyLowerList s.data⟩

/-- Index of the first occurrence of `needle` in `haystack` (`str.find`,
returned as `none` for `-1`). -/
def pyFindList (haystack needle : List Char) : Option Nat :=
  match haystack with
  | [] => if needle = [] then some 0 else none
  | _ :: rest =>
    if needle.isPrefixOf haystack then some 0
    else (pyFindList rest needle).map (· + 1)

/-- Python's `needle in haystack` substring test. -/
def pyContains (haystack needle : String) : Bool :=
  (pyFindList haystack.data needle.data).isSome

/-- Python's `str.endswith(suffix)`. -/
def pyEndsWith (s suffix : String) : Bool :=
  suffix.data.isSuffixOf s.data

/-- Python's `str.startswith(prefix)`. -/
def pyStartsWith (s pre : String) : Bool :=
  pre.data.isPrefixOf s.data

/-- `str.find(needle)` as an `Option`. -/
def pyFind (haystack needle : String) : Option Nat :=
  pyFindList haystack.data needle.data

/-- `str.find(needle, start)`: first occurrence at index ≥ `start`. -/
def pyFindFrom (haystack needle : String) (start : Nat) : Option Nat :=
  (pyFindList (haystack.data.drop start) needle.data).map (· + start)

/-- Fuel-based scanner for `str.replace(old, new)`; `fuel` bounds the number
of characters inspected, and the initial call supplies the input length, so
the fuel never runs out (each step consumes at least one character). -/
def pyReplaceFuel (old new : List Char) : Nat → List Char → List Char
  | _, [] => []
  | 0, l => l
  | fuel + 1, c :: rest =>
    if old ≠ [] ∧ old.isPrefixOf (c :: rest) then
      new ++ pyReplaceFuel old new fuel ((c :: rest).drop old.length)
    else
      c :: pyReplaceFuel old new fuel rest

/-- `str.replace(old, new)` (all non-overlapping occurrences, left to right). -/
def pyReplaceList (l : List Char) (old new : List Char) : List Char :=
  pyReplaceFuel old new l.length l

/-- `str.replace(old, new)`. -/
def pyReplace (s old new : String) : String :=
  ⟨pyReplaceList s.data old.data new.data⟩

/-- `str.replace(old, new, 1)`: replace only the first occurrence. -/
def pyReplace1List (l : List Char) (old new : List Char) : List Char :=
  match l with
  | [] => []
  | c :: rest =>
    if old ≠ [] ∧ old.isPrefixOf l then
      new ++ l.drop old.length
    else
      c :: pyReplace1List rest old new

/-- `str.replace(old, new, 1)`. -/
def pyReplace1 (s old new : String) : String :=
  ⟨pyReplace1List s.data old.data new.data⟩

/-- `str.split(sep, 1)`: split at the first occurrence of `sep` only.
Returns the pair, or `none` when `sep` does not occur. -/
def pySplit1 (s sep : String) : Option (String × String) :=
  (pyFind s sep).map fun i =>
    (⟨s.data.take i⟩, ⟨s.data.drop (i + sep.data.length)⟩)

/-- Fuel-based scanner for `str.split(sep)`; the initial call supplies the
input length as fuel, which suffices because every split step consumes at
least `sep.length ≥ 1` characters. -/
def pySplitFuel (sep : List Char) : Nat → List Char → List (List Char)
  | 0, l => [l]
  | fuel + 1, l =>
    match pyFindList l sep with
    | none => [l]
    | some i => l.take i :: pySplitFuel sep fuel (l.drop (i + sep.length))

/-- `str.split(sep)` (all occurrences, keeping empty parts; the source only
calls this with a non-empty separator). -/
def pySplitList (l sep : List Char) : List (List Char) :=
  if sep = [] then [l] else pySplitFuel sep l.length l

/-- `str.split(sep)`. -/
def pySplit (s sep : String) : List String :=
  (pySplitList s.data sep.data).map (⟨·⟩)

/-- `PurePath(p).name`: the final path component. -/
def pyBasename (p : String) : String :=
  match (pySplitList p.data ['/']).getLast? with
  | some l => ⟨l⟩
  | none => p

/-- Python f-string padding `{key:<15}`: left-justify to width 15. -/
def padTo15 (s : String) : String :=
  ⟨s.data ++ List.replicate (15 - s.data.length) ' '⟩

/-- Decimal value of a digit list (the list is assumed to be all digits). -/
def digitsToNat (l : List Char) : Nat :=
  l.foldl (fun acc c => acc * 10 + (c.toNat - '0'.toNat)) 0

/-- An exact, unreduced decimal `mantissa / 10^exp`: the value of a parsed
numeric token.  The program only parses and stores numbers, so this exact
representation is faithful; `Dec.toRat` gives the mathematical value used
in the specification statements. -/
structure Dec where
  mantissa : Nat
  exp : Nat
  deriving Repr, DecidableEq

/-- The rational value of a parsed decimal. -/
def Dec.toRat (d : Dec) : ℚ := (d.mantissa : ℚ) / (10 : ℚ) ^ d.exp

/-- Python `int(v)` on a (non-negative) parsed decimal: truncation. -/
def Dec.toInt (d : Dec) : ℤ := (d.mantissa / 10 ^ d.exp : Nat)

/-- Python `float(tok)` for a token matched by the regex class `[\d.]+`
(only digits and dots): defined iff the token has at most one dot and at
least one digit.  `float("...")` or `float("1.2.3")` raise `ValueError`,
which the callers model as `.error .valueError`. -/
def pyFloatDD (s : String) : Option Dec :=
  let l := s.data
  if l.all (fun c => c.isDigit || c = '.') = false then none
  else
    match pySplitList l ['.'] with
    | [ip] => if ip = [] then none else some ⟨digitsToNat ip, 0⟩
    | [ip, fp] =>
      if ip = [] ∧ fp = [] then none
      else some ⟨digitsToNat ip * 10 ^ fp.length + digitsToNat fp, fp.length⟩
    | _ => none

/-- Insertion-ordered dictionary update (Python `d[k] = v`): replace the
value in place when the key is present, append otherwise. -/
def dictSet {β : Type} (d : List (String × β)) (k : String) (v : β) :
    List (String × β) :=
  match d with
  | [] => [(k, v)]
  | (k', v') :: rest =>
    if k' = k then (k, v) :: rest else (k', v') :: dictSet rest k v

/-- Dictionary lookup (`d.get(k)` / `k in d`). -/
def dictGet {β : Type} (d : List (String × β)) (k : String) : Option β :=
  match d with
  | [] => none
  | (k', v') :: rest => if k' = k then some v' else dictGet rest k

/-! ## A small backtracking regex engine

Every `*`, `+`, `*?`, `{3}` in the source's patterns is applied to a single
character class, so the engine only needs star/plus over classes.  Preference
order (greedy tries longest first, lazy shortest first, alternation tries the
left branch first, search tries the leftmost start position first) mirrors
Python's `re`.  All source patterns are compiled with `re.IGNORECASE`, so
literal characters compare case-insensitively. -/

/-- The character classes appearing in the source's regular expressions. -/
inductive CharClass where
  /-- `\w` (ASCII fragment, matching the program's inputs) -/
  | word
  /-- `\d` -/
  | digit
  /-- `\s` -/
  | space
  /-- `.` without `re.DOTALL`: anything but a newline -/
  | anyNoNL
  /-- `[\d.]` -/
  | digitDot
  /-- `[rs]` (case-insensitive) -/
  | oneOfRS
  /-- `[^)]` -/
  | nonRpar
  /-- `[^>]` -/
  | nonGt
  /-- `[\w\s]` -/
  | wordOrSpace
  deriving Repr, DecidableEq

def ccMatch : CharClass → Char → Bool
  | .word, c => c.isAlphanum || c = '_'
  | .digit, c => c.isDigit
  | .space, c => pyIsSpace c
  | .anyNoNL, c => c ≠ '\n'
  | .digitDot, c => c.isDigit || c = '.'
  | .oneOfRS, c => c.toLower = 'r' || c.toLower = 's'
  | .nonRpar, c => c ≠ ')'
  | .nonGt, c => c ≠ '>'
  | .wordOrSpace, c => c.isAlphanum || c = '_' || pyIsSpace c

/-- Regular expressions, restricted to the shapes used by the source. -/
inductive RE where
  | eps
  /-- literal text (compared case-insensitively, per `re.IGNORECASE`) -/
  | lit (s : String)
  | cls (c : CharClass)
  | seq (a b : RE)
  | alt (a b : RE)
  /-- greedy `(...)?` -/
  | optG (a : RE)
  /-- greedy `c*` -/
  | starG (c : CharClass)
  /-- lazy `c*?` -/
  | starL (c : CharClass)
  /-- greedy `c+` -/
  | plusG (c : CharClass)
  /-- `c{n}` -/
  | rep (c : CharClass) (n : Nat)
  /-- numbered capture group -/
  | grp (i : Nat) (a : RE)
  /-- `$` (end of subject; the subjects fed to anchored patterns are single
  lines with the trailing newline already stripped) -/
  | eol
  deriving Repr

/-- Captured groups: group index ↦ captured text. -/
abbrev Captures := List (Nat × List Char)

def capSet (caps : Captures) (i : Nat) (v : List Char) : Captures :=
  match caps with
  | [] => [(i, v)]
  | (j, w) :: rest => if j = i then (i, v) :: rest else (j, w) :: capSet rest i v

def capGet (caps : Captures) (i : Nat) : List Char :=
  match caps with
  | [] => []
  | (j, w) :: rest => if j = i then w else capGet rest i

/-- `match.group(i)` as a string. -/
def capStr (caps : Captures) (i : Nat) : String := ⟨capGet caps i⟩

/-- Case-insensitive literal prefix match; returns the rest of the input. -/
def litMatch : List Char → List Char → Option (List Char)
  | [], s => some s
  | _ :: _, [] => none
  | p :: ps, c :: cs => if c.toLower = p.toLower then litMatch ps cs else none

/-- Length of the maximal run of characters matching class `c`. -/
def ccRun (c : CharClass) : List Char → Nat
  | [] => 0
  | x :: xs => if ccMatch c x then ccRun c xs + 1 else 0

/-- Greedy repetition: try consuming `n, n-1, …, n-steps` characters,
succeeding on the longest count the continuation accepts. -/
def tryCountsDown {α : Type} (k : List Char → Option α) (s : List Char) :
    Nat → Nat → Option α
  | n, 0 => k (s.drop n)
  | n, steps + 1 =>
    match k (s.drop n) with
    | some r => some r
    | none => tryCountsDown k s (n - 1) steps

/-- Lazy repetition: try consuming `n, n+1, …, n+steps` characters,
succeeding on the shortest count the continuation accepts. -/
def tryCountsUp {α : Type} (k : List Char → Option α) (s : List Char) :
    Nat → Nat → Option α
  | n, 0 => k (s.drop n)
  | n, steps + 1 =>
    match k (s.drop n) with
    | some r => some r
    | none => tryCountsUp k s (n + 1) steps

/-- The backtracking matcher, in continuation style.  `reM r s caps k`
matches `r` against a prefix of `s` and passes the updated captures and the
rest of the input to `k`; alternatives are tried in Python's preference
order until `k` succeeds. -/
def reM : RE → List Char → Captures →
    (Captures → List Char → Option (Captures × List Char)) →
    Option (Captures × List Char)
  | .eps, s, caps, k => k caps s
  | .lit str, s, caps, k =>
    match litMatch str.data s with
    | some rest => k caps rest
    | none => none
  | .cls c, s, caps, k =>
    match s with
    | [] => none
    | x :: xs => if ccMatch c x then k caps xs else none
  | .seq a b, s, caps, k => reM a s caps (fun caps' s' => reM b s' caps' k)
  | .alt a b, s, caps, k =>
    match reM a s caps k with
    | some r => some r
    | none => reM b s caps k
  | .optG a, s, caps, k =>
    match reM a s caps k with
    | some r => some r
    | none => k caps s
  | .starG c, s, caps, k => tryCountsDown (k caps) s (ccRun c s) (ccRun c s)
  | .starL c, s, caps, k => tryCountsUp (k caps) s 0 (ccRun c s)
  | .plusG c, s, caps, k =>
    if ccRun c s = 0 then none
    else tryCountsDown (k caps) s (ccRun c s) (ccRun c s - 1)
  | .rep c n, s, caps, k =>
    if n ≤ ccRun c s then k caps (s.drop n) else none
  | .grp i a, s, caps, k =>
    reM a s caps (fun caps' s' => k (capSet caps' i (s.take (s.length - s'.length))) s')
  | .eol, s, caps, k =>
    match s with
    | [] => k caps s
    | _ => none

/-- `re.search`: try each start position from the left; on success return
the captures and the input remaining after the match. -/
def reSearchAux (r : RE) : List Char → Option (Captures × List Char)
  | [] => reM r [] [] (fun caps rest => some (caps, rest))
  | c :: xs =>
    match reM r (c :: xs) [] (fun caps rest => some (caps, rest)) with
    | some res => some res
    | none => reSearchAux r xs

/-- `re.search` returning just the captures. -/
def reSearch (r : RE) (s : String) : Option Captures :=
  (reSearchAux r s.data).map Prod.fst

/-- `re.findall`: repeated non-overlapping leftmost search.  All patterns the
source feeds to `findall` begin with a non-empty literal, so every match
consumes at least one character and an input-length fuel bound is exact. -/
def findAllAux (r : RE) : Nat → List Char → List Captures
  | 0, _ => []
  | fuel + 1, s =>
    match reSearchAux r s with
    | none => []
    | some (caps, rest) => caps :: findAllAux r fuel rest

def findAll (r : RE) (s : String) : List Captures :=
  findAllAux r (s.data.length + 1) s.data

/-- Right-nested sequencing of a pattern list. -/
def reSeq (l : List RE) : RE := l.foldr .seq .eps

/-! ## Embedding of `src/specer/result_parser.py`:
the live-output patterns of `parse_result_files` (lines 31–39) -/

/-- `(?:\s|$)` -/
def spaceOrEnd : RE := .alt (.cls .space) .eol

/-- `The result.*?is in (.*?)(?:\s|$)` -/
def result_file_re : RE :=
  reSeq [.lit "The result", .starL .anyNoNL, .lit "is in ",
         .grp 1 (.starL .anyNoNL), spaceOrEnd]

/-- `SPEC\w+\d+_\w+_\w+` (the full score-name shape) -/
def fullScoreName : RE :=
  reSeq [.lit "SPEC", .plusG .word, .plusG .digit, .lit "_", .plusG .word,
         .lit "_", .plusG .word]

/-- `SPEC\w+\d+_\w+` (the coarser metric-name shape) -/
def metricName : RE :=
  reSeq [.lit "SPEC", .plusG .word, .plusG .digit, .lit "_", .plusG .word]

/-- `Est\. (SPEC\w+\d+_\w+_\w+)\s*=\s*([\d.]+)` -/
def score_line_re : RE :=
  reSeq [.lit "Est. ", .grp 1 fullScoreName, .starG .space, .lit "=",
         .starG .space, .grp 2 (.plusG .digitDot)]

/-- `Est\. (SPEC\w+\d+_\w+)\s*=\s*([\d.]+)` -/
def metric_line_re : RE :=
  reSeq [.lit "Est. ", .grp 1 metricName, .starG .space, .lit "=",
         .starG .space, .grp 2 (.plusG .digitDot)]

/-- `The log for this run is in (.*?)(?:\s|$)` -/
def log_file_re : RE :=
  reSeq [.lit "The log for this run is in ", .grp 1 (.starL .anyNoNL), spaceOrEnd]

/-- `(?:format to|reports are in) (.*?)(?:\s|$)` -/
def report_location_re : RE :=
  reSeq [.alt (.lit "format to") (.lit "reports are in"), .lit " ",
         .grp 1 (.starL .anyNoNL), spaceOrEnd]

/-- `.*\.rsf` -/
def rawfile_re : RE := reSeq [.starG .anyNoNL, .lit ".rsf"]

/-- `.*\.(html|pdf|txt|ps)$` -/
def formatted_result_re : RE :=
  reSeq [.starG .anyNoNL, .lit ".",
         .grp 1 (.alt (.lit "html") (.alt (.lit "pdf") (.alt (.lit "txt") (.lit "ps")))),
         .eol]

/-- The `patterns` dict of `parse_result_files`, in insertion order. -/
def liveOutputPatterns : List (String × RE) :=
  [("result_file", result_file_re),
   ("score_line", score_line_re),
   ("metric_line", metric_line_re),
   ("log_file", log_file_re),
   ("report_location", report_location_re),
   ("rawfile", rawfile_re),
   ("formatted_result", formatted_result_re)]

/-- The `result_info` record built by `parse_result_files`. -/
structure ResultInfo where
  /-- list of `{"path": …, "type": …}` entries, as (path, type) pairs -/
  result_files : List (String × String)
  scores : List (String × Dec)
  metrics : List (String × Dec)
  log_file : Option String
  deriving Repr, DecidableEq

/-- One `re.search` + dispatch step of the inner pattern loop
(`parse_result_files`, lines 47–65). -/
def livePatternStep (info : ResultInfo) (pname : String) (re : RE)
    (line : String) : Except PyErr ResultInfo :=
  match reSearch re line with
  | none => .ok info
  | some caps =>
    if pname = "result_file" ∨ pname = "report_location" then
      let file_path := pyStrip (capStr caps 1)
      if file_path ≠ "" ∧ file_path ∉ info.result_files.map Prod.fst then
        .ok { info with result_files := info.result_files ++ [(file_path, "result")] }
      else .ok info
    else if pname = "score_line" then
      match pyFloatDD (capStr caps 2) with
      | none => .error .valueError
      | some score => .ok { info with scores := dictSet info.scores (capStr caps 1) score }
    else if pname = "metric_line" then
      match pyFloatDD (capStr caps 2) with
      | none => .error .valueError
      | some score => .ok { info with metrics := dictSet info.metrics (capStr caps 1) score }
    else if pname = "log_file" then
      .ok { info with log_file := some (pyStrip (capStr caps 1)) }
    else
      -- "rawfile" / "formatted_result": matched but no dispatch branch
      .ok info

/-- The result-file extensions sniffed by `parse_result_files` (line 68). -/
def sniffExts : List String := [".rsf", ".html", ".pdf", ".txt", ".ps"]

/-- The extension-sniffing word scan (`parse_result_files`, lines 67–77). -/
def extWordScan (info : ResultInfo) (line : String) : ResultInfo :=
  if sniffExts.any (fun ext => pyContains (pyLower line) ext) then
    (pySplitWsList line.data).foldl
      (fun acc w =>
        let word : String := ⟨w⟩
        if sniffExts.any (fun ext => pyEndsWith word ext) then
          if word ∉ acc.result_files.map Prod.fst then
            { acc with result_files := acc.result_files ++ [(word, "result_file")] }
          else acc
        else acc)
      info
  else info

/-- Processing of one (stripped) line of live output. -/
def liveLineStep (info : ResultInfo) (rawLine : String) : Except PyErr ResultInfo := do
  let line := pyStrip rawLine
  let info ← liveOutputPatterns.foldlM
    (fun acc p => livePatternStep acc p.1 p.2 line) info
  pure (extWordScan info line)

/-- The extraction loop of `parse_result_files` (lines 19–77): the record
built before the final "anything found?" test. -/
def extractResultInfo (output : String) : Except PyErr ResultInfo :=
  (splitOnNlList output.data).foldlM (fun info l => liveLineStep info ⟨l⟩)
    ⟨[], [], [], none⟩

/-- Python truthiness of `result_info["result_files"] or result_info["scores"]
or result_info["log_file"]` (lines 79–85): note that `metrics` does not
participate, and that `log_file` set to the empty string is falsy. -/
def infoTruthy (info : ResultInfo) : Bool :=
  !info.result_files.isEmpty || !info.scores.isEmpty ||
    (match info.log_file with
     | some s => s ≠ ""
     | none => false)

/-- `parse_result_files` (lines 10–85).  The function body has no
`try`/`except`, so a `ValueError` from `float(...)` propagates: it is the
`.error` case. -/
def parse_result_files (output : String) : Except PyErr (Option ResultInfo) :=
  (extractResultInfo output).map
    (fun info => if infoTruthy info then some info else none)

/-! ### `read_result_file` (lines 88–270) -/

/-- The benchmark id group of the detailed RSF patterns:
`(\d{3}_\w+(?:_[rs])?)`. -/
def rsfIdUnderscore : RE :=
  reSeq [.rep .digit 3, .lit "_", .plusG .word,
         .optG (reSeq [.lit "_", .cls .oneOfRS])]

/-- The dotted benchmark id group: `(\d{3}\.\w+(?:_[rs])?)`. -/
def dottedId : RE :=
  reSeq [.rep .digit 3, .lit ".", .plusG .word,
         .optG (reSeq [.lit "_", .cls .oneOfRS])]

/-- `spec\.cpu2017\.<key>:\s*([\d.]+)` (the suite-level RSF patterns). -/
def suite_re (key : String) : RE :=
  reSeq [.lit ("spec.cpu2017." ++ key ++ ":"), .starG .space,
         .grp 1 (.plusG .digitDot)]

/-- `spec\.cpu2017\.results\.(\d{3}_\w+(?:_[rs])?)\.(?:base|peak)\.000\.<field>:\s*([\d.]+)` -/
def detailed_re (field : String) : RE :=
  reSeq [.lit "spec.cpu2017.results.", .grp 1 rsfIdUnderscore, .lit ".",
         .alt (.lit "base") (.lit "peak"), .lit (".000." ++ field ++ ":"),
         .starG .space, .grp 2 (.plusG .digitDot)]

/-- `spec\.cpu2017\.(\d{3}\.\w+(?:_[rs])?)\.(?:base|peak)\.<field>:\s*([\d.]+)` -/
def legacy_re (field : String) : RE :=
  reSeq [.lit "spec.cpu2017.", .grp 1 dottedId, .lit ".",
         .alt (.lit "base") (.lit "peak"), .lit ("." ++ field ++ ":"),
         .starG .space, .grp 2 (.plusG .digitDot)]

/-- `spec\.cpu2017\.errors\d+:\s*(\d{3}\.\w+(?:_[rs])?)\s*\([^)]+\)\s*(.+)` -/
def benchmark_error_re : RE :=
  reSeq [.lit "spec.cpu2017.errors", .plusG .digit, .lit ":", .starG .space,
         .grp 1 dottedId, .starG .space, .lit "(", .plusG .nonRpar, .lit ")",
         .starG .space, .grp 2 (.plusG .anyNoNL)]

/-- The RSF pattern table (lines 140–159), in insertion order, each with the
group indices that `re.findall` returns for it. -/
def rsfPatterns : List (String × RE × List Nat) :=
  [("suite_base_mean", suite_re "basemean", [1]),
   ("suite_peak_mean", suite_re "peakmean", [1]),
   ("suite_base_energy", suite_re "baseenergymean", [1]),
   ("suite_peak_energy", suite_re "peakenergymean", [1]),
   ("detailed_ratio", detailed_re "ratio", [1, 2]),
   ("detailed_time", detailed_re "reported_sec", [1, 2]),
   ("detailed_reference", detailed_re "reference", [1, 2]),
   ("detailed_copies", detailed_re "copies", [1, 2]),
   ("detailed_threads", detailed_re "threads", [1, 2]),
   ("benchmark_ratio", legacy_re "ratio", [1, 2]),
   ("benchmark_time", legacy_re "time", [1, 2]),
   ("benchmark_result", legacy_re "result", [1, 2]),
   ("benchmark_error", benchmark_error_re, [1, 2])]

/-- `Est\.\s+(SPEC\w+\d+_\w+_\w+)\s*=\s*([\d.]+)` -/
def overall_score_re : RE :=
  reSeq [.lit "Est.", .plusG .space, .grp 1 fullScoreName, .starG .space,
         .lit "=", .starG .space, .grp 2 (.plusG .digitDot)]

/-- `Est\.\s+(SPEC\w+\d+_\w+)\s*=\s*([\d.]+)` -/
def suite_metric_re : RE :=
  reSeq [.lit "Est.", .plusG .space, .grp 1 metricName, .starG .space,
         .lit "=", .starG .space, .grp 2 (.plusG .digitDot)]

/-- `(\d{3}\.\w+(?:_[rs])?)\s+[\w\s]+\s+([\d.]+)\s+([\d.]+)` -/
def table_result_re : RE :=
  reSeq [.grp 1 dottedId, .plusG .space, .plusG .wordOrSpace, .plusG .space,
         .grp 2 (.plusG .digitDot), .plusG .space, .grp 3 (.plusG .digitDot)]

/-- `<td[^>]*>(\d{3}\.\w+(?:_[rs])?)</td>.*?<td[^>]*>([\d.]+)</td>.*?<td[^>]*>([\d.]+)</td>` -/
def html_result_re : RE :=
  reSeq [.lit "<td", .starG .nonGt, .lit ">", .grp 1 dottedId, .lit "</td>",
         .starL .anyNoNL, .lit "<td", .starG .nonGt, .lit ">",
         .grp 2 (.plusG .digitDot), .lit "</td>", .starL .anyNoNL,
         .lit "<td", .starG .nonGt, .lit ">", .grp 3 (.plusG .digitDot),
         .lit "</td>"]

/-- The text/HTML pattern table (lines 162–170). -/
def textPatterns : List (String × RE × List Nat) :=
  [("overall_score", overall_score_re, [1, 2]),
   ("suite_metric", suite_metric_re, [1, 2]),
   ("table_result", table_result_re, [1, 2, 3]),
   ("html_result", html_result_re, [1, 2, 3])]

/-- A value stored in a benchmark's record: the source mixes floats
(`ratio`, `time`, …), ints (`copies`, `threads`) and strings (`warning`). -/
inductive PyVal where
  | num (d : Dec)
  | intv (n : ℤ)
  | str (s : String)
  deriving Repr, DecidableEq

/-- The `result_data` record of `read_result_file`. -/
structure ResultData where
  file_path : String
  scores : List (String × Dec)
  metrics : List (String × Dec)
  benchmark_results : List (String × List (String × PyVal))
  deriving Repr, DecidableEq

/-- Python truthiness of `benchmark_results[b].get("ratio")`. -/
def pyTruthyOpt : Option PyVal → Bool
  | none => false
  | some (.num d) => d.mantissa ≠ 0
  | some (.intv n) => n ≠ 0
  | some (.str s) => s ≠ ""

/-- The per-match dispatch of the RSF branch (`read_result_file`,
lines 176–242).  `m` is the group tuple `re.findall` produced for the
pattern named `pname`. -/
def rsfApplyMatch (file_path : String) (d : ResultData) (pname : String)
    (m : List String) : Except PyErr ResultData :=
  if pname = "suite_base_mean" ∨ pname = "suite_peak_mean" then
    match pyFloatDD (m.headD "") with
    | none => .error .valueError
    | some score =>
      let metric_name :=
        "SPEC" ++
        (if pyContains file_path "intspeed" || pyContains file_path "intrate"
         then "int" else "fp") ++
        "2017_" ++
        (if pyContains file_path "rate" then "rate" else "speed") ++
        "_" ++
        (if pyContains pname "base" then "base" else "peak")
      .ok { d with scores := dictSet d.scores metric_name score }
  else if pname = "suite_base_energy" ∨ pname = "suite_peak_energy" then
    if (m.headD "") ≠ "--" then
      match pyFloatDD (m.headD "") with
      | none => .error .valueError
      | some score =>
        let metric_name :=
          "Energy_" ++ (if pyContains pname "base" then "base" else "peak")
        .ok { d with metrics := dictSet d.metrics metric_name score }
    else .ok d
  else if pyStartsWith pname "detailed_" then
    let benchmark_name := pyReplace1 (m.headD "") "_" "."
    match pyFloatDD (m.getD 1 "") with
    | none => .error .valueError
    | some value =>
      let entry := (dictGet d.benchmark_results benchmark_name).getD []
      let metric_type := ((pySplit1 pname "_").map Prod.snd).getD pname
      let entry' :=
        if metric_type = "time" then dictSet entry "time" (.num value)
        else if metric_type = "ratio" then dictSet entry "ratio" (.num value)
        else if metric_type = "reference" then dictSet entry "reference" (.num value)
        else if metric_type = "copies" then dictSet entry "copies" (.intv value.toInt)
        else if metric_type = "threads" then dictSet entry "threads" (.intv value.toInt)
        else entry
      .ok { d with benchmark_results := dictSet d.benchmark_results benchmark_name entry' }
  else if pname = "benchmark_ratio" ∨ pname = "benchmark_time" ∨ pname = "benchmark_result" then
    let benchmark := m.headD ""
    match pyFloatDD (m.getD 1 "") with
    | none => .error .valueError
    | some value =>
      let entry := (dictGet d.benchmark_results benchmark).getD []
      let metric_type := ((pySplit pname "_").getD 1 "")
      .ok { d with benchmark_results :=
              dictSet d.benchmark_results benchmark (dictSet entry metric_type (.num value)) }
  else if pname = "benchmark_error" then
    let benchmark := m.headD ""
    let error_msg := m.getD 1 ""
    match dictGet d.benchmark_results benchmark with
    | some entry =>
      if pyTruthyOpt (dictGet entry "ratio") then
        .ok { d with benchmark_results :=
                dictSet d.benchmark_results benchmark (dictSet entry "warning" (.str error_msg)) }
      else .ok d
    | none => .ok d
  else .ok d

/-- The per-match dispatch of the text/HTML branch (lines 244–264). -/
def textApplyMatch (d : ResultData) (pname : String) (m : List String) :
    Except PyErr ResultData :=
  if pname = "overall_score" ∨ pname = "suite_metric" then
    let metric_name := m.headD ""
    match pyFloatDD (m.getD 1 "") with
    | none => .error .valueError
    | some score =>
      if pyContains metric_name "base" || pyContains metric_name "peak" then
        .ok { d with scores := dictSet d.scores metric_name score }
      else
        .ok { d with metrics := dictSet d.metrics metric_name score }
  else if pname = "table_result" ∨ pname = "html_result" then
    let benchmark := m.headD ""
    -- the `try … except (ValueError, IndexError): continue` of lines 256–264
    match pyFloatDD (m.getD 1 ""), pyFloatDD (m.getD 2 "") with
    | some ratio, some time =>
      let entry : List (String × PyVal) := [("ratio", .num ratio), ("time", .num time)]
      .ok { d with benchmark_results := dictSet d.benchmark_results benchmark entry }
    | _, _ => .ok d
  else .ok d

/-- The pattern loop of `read_result_file` (lines 172–264): run `findall`
for each pattern over the whole file content and fold the dispatch over
all matches. -/
def applyAllMatches
    (apply : ResultData → String → List String → Except PyErr ResultData)
    (d0 : ResultData) (patterns : List (String × RE × List Nat))
    (content : String) : Except PyErr ResultData :=
  patterns.foldlM
    (fun d p =>
      (findAll p.2.1 content).foldlM
        (fun d caps => apply d p.1 (p.2.2.map (capStr caps))) d)
    d0

/-- The body of `read_result_file`'s `try` block once the file content has
been read (lines 134–266): branch on the `.rsf` extension and run the
corresponding pattern table. -/
def readFileBody (file_path content : String) : Except PyErr ResultData :=
  let d0 : ResultData := ⟨file_path, [], [], []⟩
  if pyEndsWith file_path ".rsf" then
    applyAllMatches (rsfApplyMatch file_path) d0 rsfPatterns content
  else
    applyAllMatches textApplyMatch d0 textPatterns content

/-- The relative-path resolution of `read_result_file` (lines 100–117):
try the path under `spec_root`, under `spec_root/result`, and under
`spec_root/result` by base name; first existing candidate wins. -/
def resolveResultPath (exists? : String → Bool)
    (file_path spec_root : String) : Option String :=
  if pyStartsWith file_path "/" then some file_path
  else
    [spec_root ++ "/" ++ file_path,
     spec_root ++ "/result/" ++ file_path,
     spec_root ++ "/result/" ++ pyBasename file_path].find? exists?

/-- The `try` block of `read_result_file` (lines 130–270): read the file
and parse it; `except Exception: return None` maps any error to `none`. -/
def readAndParse (readF : String → Except PyErr String) (fp : String) :
    Option ResultData :=
  match (do
    let content ← readF fp
    readFileBody fp content : Except PyErr ResultData) with
  | .ok d => some d
  | .error _ => none

/-- `read_result_file` (lines 88–270): resolve the path, then read and
parse under the `try`/`except`. -/
def read_result_file (exists? : String → Bool)
    (readF : String → Except PyErr String)
    (file_path spec_root : String) : Option ResultData :=
  match resolveResultPath exists? file_path spec_root with
  | none => none
  | some fp => readAndParse readF fp

/-! ## Embedding of `src/specer/utils.py` -/

/-- `BENCHMARK_MAPPING` (utils.py lines 22–43):
alias ↦ (speed version, rate version).  Note the one mixed-case key. -/
def BENCHMARK_MAPPING : List (String × String × String) :=
  [("perlbench", "600.perlbench_s", "500.perlbench_r"),
   ("gcc", "602.gcc_s", "502.gcc_r"),
   ("mcf", "605.mcf_s", "505.mcf_r"),
   ("omnetpp", "620.omnetpp_s", "520.omnetpp_r"),
   ("xalancbmk", "623.xalancbmk_s", "523.xalancbmk_r"),
   ("x264", "625.x264_s", "525.x264_r"),
   ("deepsjeng", "631.deepsjeng_s", "531.deepsjeng_r"),
   ("leela", "641.leela_s", "541.leela_r"),
   ("exchange2", "648.exchange2_s", "548.exchange2_r"),
   ("xz", "657.xz_s", "557.xz_r"),
   ("bwaves", "603.bwaves_s", "503.bwaves_r"),
   ("cactuBSSN", "607.cactuBSSN_s", "507.cactuBSSN_r"),
   ("lbm", "619.lbm_s", "519.lbm_r"),
   ("wrf", "621.wrf_s", "521.wrf_r"),
   ("cam4", "627.cam4_s", "527.cam4_r"),
   ("pop2", "628.pop2_s", "528.pop2_r"),
   ("imagick", "638.imagick_s", "538.imagick_r"),
   ("nab", "644.nab_s", "544.nab_r"),
   ("fotonik3d", "649.fotonik3d_s", "549.fotonik3d_r"),
   ("roms", "654.roms_s", "554.roms_r")]

/-- The suite keywords accepted verbatim (utils.py lines 110–118). -/
def suiteKeywords : List String :=
  ["intspeed", "fpspeed", "specspeed", "intrate", "fprate", "specrate", "all"]

/-- `convert_benchmark_names` (utils.py lines 85–139). -/
def convert_benchmark_names (benchmarks : List String)
    (prefer_speed : Bool := false) (prefer_rate : Bool := false) : List String :=
  benchmarks.map fun benchmark =>
    -- full SPEC name check: `"." in benchmark and any(char.isdigit() for char
    -- in benchmark.split(".")[0])`
    if pyContains benchmark "." &&
        (((pySplit benchmark ".").headD "").data.any Char.isDigit) then
      benchmark
    else if pyLower benchmark ∈ suiteKeywords then
      benchmark
    else
      match dictGet BENCHMARK_MAPPING (pyLower benchmark) with
      | some (speed_version, rate_version) =>
        if prefer_speed then speed_version
        else if prefer_rate then rate_version
        else speed_version
      | none => benchmark

/-- `detect_suite_preference` (utils.py lines 142–157): a fold mirroring the
source's counting loop (note the `elif`, and that only the `speed`/`rate`
substring checks lower-case the token). -/
def detect_suite_preference (benchmarks : List String) : Bool × Bool :=
  let counts := benchmarks.foldl
    (fun (c : Nat × Nat) benchmark =>
      if pyContains benchmark "_s" || pyContains (pyLower benchmark) "speed" then
        (c.1 + 1, c.2)
      else if pyContains benchmark "_r" || pyContains (pyLower benchmark) "rate" then
        (c.1, c.2 + 1)
      else c)
    (0, 0)
  (decide (counts.2 < counts.1), decide (counts.1 < counts.2))

/-- Modelled from the claim's words (claim C7): a token containing `_s` or
the substring `speed` (case-insensitive) is a speed signal. -/
def claimSpeedSignal (t : String) : Bool :=
  pyContains (pyLower t) "_s" || pyContains (pyLower t) "speed"

/-- Modelled from the claim's words (claim C7): a token containing `_r` or
`rate` (case-insensitive) is a rate signal.  Under the claim's counting a
token may be both a speed and a rate signal. -/
def claimRateSignal (t : String) : Bool :=
  pyContains (pyLower t) "_r" || pyContains (pyLower t) "rate"

/-- The claim's version of `detect_suite_preference`: inclusive counting of
speed and rate signals, then strict majority comparisons. -/
def claimSuitePreference (benchmarks : List String) : Bool × Bool :=
  let sc := benchmarks.countP claimSpeedSignal
  let rc := benchmarks.countP claimRateSignal
  (decide (rc < sc), decide (sc < rc))

/-- The classification the code actually implements, per token: `_s`
(case-sensitive) or `speed` (case-insensitive) makes a speed signal … -/
def codeSpeedSignal (t : String) : Bool :=
  pyContains t "_s" || pyContains (pyLower t) "speed"

/-- … otherwise `_r` (case-sensitive) or `rate` (case-insensitive) makes a
rate signal: the two checks are exclusive, speed takes precedence. -/
def codeRateSignal (t : String) : Bool :=
  !codeSpeedSignal t && (pyContains t "_r" || pyContains (pyLower t) "rate")

/-- The amended (exclusive-count) version of `detect_suite_preference`. -/
def amendedSuitePreference (benchmarks : List String) : Bool × Bool :=
  let sc := benchmarks.countP codeSpeedSignal
  let rc := benchmarks.countP codeRateSignal
  (decide (rc < sc), decide (sc < rc))

/-- `typer.Exit` raised by `build_runcpu_command` when `runcpu` is missing. -/
inductive TyperExit where
  | exit (code : Nat)
  deriving Repr, DecidableEq

/-- The keyword arguments of `build_runcpu_command` (utils.py lines 931–948),
with the source's defaults. -/
structure RuncpuArgs where
  action : String
  benchmarks : List String
  config : String
  tune : Option String := none
  spec_root : Option String := none
  verbose : Bool := false
  rebuild : Bool := false
  parallel_test : Option Int := none
  ignore_errors : Bool := false
  size : Option String := none
  copies : Option Int := none
  threads : Option Int := none
  iterations : Option Int := none
  reportable : Bool := false
  noreportable : Bool := false
  output_formats : Option String := none

/-- `build_runcpu_command` (utils.py lines 931–1030).  `exists?` models the
`runcpu_path.exists()` check; a missing `runcpu` raises `typer.Exit(1)`. -/
def build_runcpu_command (a : RuncpuArgs) (exists? : String → Bool) :
    Except TyperExit (List String) := do
  let cmd ←
    match a.spec_root with
    | some root =>
      let runcpu_path := root ++ "/bin/runcpu"
      if exists? runcpu_path then pure [runcpu_path]
      else throw (.exit 1)
    | none => pure ["runcpu"]
  let cmd := if a.action = "update" then cmd ++ ["--update"]
             else cmd ++ ["--action", a.action] ++ ["--config", a.config]
  let cmd := match a.tune with
             | some t => if t ≠ "" then cmd ++ ["--tune", t] else cmd
             | none => cmd
  let cmd := match a.size with
             | some s => if s ≠ "" then cmd ++ ["--size", s] else cmd
             | none => cmd
  let cmd := match a.copies with
             | some c => cmd ++ ["--copies", toString c]
             | none => cmd
  let cmd := match a.threads with
             | some t => cmd ++ ["--threads", toString t]
             | none => cmd
  let cmd := match a.iterations with
             | some i => cmd ++ ["--iterations", toString i]
             | none => cmd
  let cmd := if a.reportable then cmd ++ ["--reportable"]
             else if a.noreportable then cmd ++ ["--noreportable"]
             else cmd
  let cmd := match a.output_formats with
             | some f =>
               if pyLower f = "all" then cmd
               else cmd ++ ["--output_format", f]
             | none => cmd ++ ["--output_format", "rsf,pdf"]
  let cmd := if a.verbose then cmd ++ ["--verbose=5"] else cmd
  let cmd := if a.rebuild then cmd ++ ["--rebuild"] else cmd
  let cmd := match a.parallel_test with
             | some p => cmd ++ ["--parallel_test", toString p]
             | none => cmd
  let cmd := if a.ignore_errors then cmd ++ ["--ignore_errors"] else cmd
  let cmd := if a.action ≠ "update" then cmd ++ a.benchmarks else cmd
  pure cmd

/-! ### `generate_intel_config_additions` (utils.py lines 523–690) -/

/-- The filesystem facts the Intel config generator consults:
`Path.exists` and `Path.iterdir` (restricted to subdirectory names,
as the source filters on `is_dir()`). -/
structure FS where
  pathExists : String → Bool
  subdirNames : String → List String

/-- `Path.parent` on the well-formed slash-joined paths the source builds. -/
def pparent (p : String) : String :=
  let parts := pySplitList p.data ['/']
  if parts.length ≤ 1 then "."
  else String.intercalate "/" ((parts.map (fun l => (⟨l⟩ : String))).dropLast)

/-- The `OPTIMIZE` flag string of the base-tuning directives (line 662). -/
def intelOptimize : String :=
  "-w -m64 -Wl,-z,muldefs -xHost -Ofast -ffast-math -flto -mfpmath=sse -funroll-loops -qopt-mem-layout-trans=4 -mprefer-vector-width=512"

/-- The `COPTIMIZE` flag string (line 663). -/
def intelCoptimize : String :=
  "-w -std=c11 -m64 -Wl,-z,muldefs -xHost -Ofast -ffast-math -flto -mfpmath=sse -funroll-loops -qopt-mem-layout-trans=4 -Wno-implicit-int -mprefer-vector-width=512"

/-- The `CXXOPTIMIZE` flag string (line 664). -/
def intelCxxoptimize : String :=
  "-w -std=c++14 -m64 -Wl,-z,muldefs -xHost -Ofast -ffast-math -flto -mfpmath=sse -funroll-loops -qopt-mem-layout-trans=4 -mprefer-vector-width=512"

/-- The `FOPTIMIZE` flag string (line 673). -/
def intelFoptimize : String :=
  "-w -m64 -Wl,-z,muldefs -xHost -Ofast -ffast-math -flto -mfpmath=sse -funroll-loops -qopt-mem-layout-trans=4 -nostandard-realloc-lhs -align array32byte -auto"

/-- The per-suite block of the `for suite in fp_suites` loop
(utils.py lines 657–687): the base-tuning directives followed by the
`basepeak = yes` peak directive. -/
def intelSuiteBlock (suite cc cxx : String) (fc : Option String)
    (ldflags cppflags : String) : List String :=
  [suite ++ "=base:CC=" ++ cc,
   suite ++ "=base:CXX=" ++ cxx,
   suite ++ "=base:OPTIMIZE=" ++ intelOptimize,
   suite ++ "=base:COPTIMIZE=" ++ intelCoptimize,
   suite ++ "=base:CXXOPTIMIZE=" ++ intelCxxoptimize] ++
  (match fc with
   | some fcp => [suite ++ "=base:FC=" ++ fcp,
                  suite ++ "=base:FOPTIMIZE=" ++ intelFoptimize]
   | none => []) ++
  (if ldflags ≠ "" then [suite ++ "=base:LDFLAGS=" ++ ldflags] else []) ++
  (if cppflags ≠ "" then [suite ++ "=base:CPPFLAGS=" ++ cppflags] else []) ++
  [suite ++ "=peak: basepeak = yes"]

/-- The compiler-bin search of lines 536–564: the `latest` candidates, then
version-specific candidates from `iterdir`, first one containing `icx` wins,
with the `latest/bin` fallback. -/
def intelCompilerBasePath (fs : FS) (oneapi_path : String) : String :=
  let possible_compiler_paths :=
    [oneapi_path ++ "/compiler/latest/bin",
     oneapi_path ++ "/compiler/latest/linux/bin"]
  let compiler_dir := oneapi_path ++ "/compiler"
  let possible_compiler_paths := possible_compiler_paths ++
    (if fs.pathExists compiler_dir then
      (fs.subdirNames compiler_dir).foldl
        (fun acc name =>
          if name ≠ "latest" then
            acc ++ [compiler_dir ++ "/" ++ name ++ "/bin",
                    compiler_dir ++ "/" ++ name ++ "/linux/bin"]
          else acc)
        []
     else [])
  match possible_compiler_paths.find? (fun p => fs.pathExists (p ++ "/icx")) with
  | some p => p
  | none => oneapi_path ++ "/compiler/latest/bin"

/-- The effective `CC` (line 577). -/
def intelCc (fs : FS) (oneapi_path : String) : String :=
  let icx_path := intelCompilerBasePath fs oneapi_path ++ "/icx"
  if fs.pathExists icx_path then icx_path else "icx"

/-- The effective `CXX` (line 578). -/
def intelCxx (fs : FS) (oneapi_path : String) : String :=
  let icpx_path := intelCompilerBasePath fs oneapi_path ++ "/icpx"
  if fs.pathExists icpx_path then icpx_path else "icpx"

/-- The optional `FC` (lines 581–587). -/
def intelFc (fs : FS) (oneapi_path : String) : Option String :=
  let ifx_path := intelCompilerBasePath fs oneapi_path ++ "/ifx"
  if fs.pathExists ifx_path then some ifx_path else none

/-- The `LDFLAGS` value built from the library paths that exist on disk
(lines 600–643). -/
def intelLdflags (fs : FS) (oneapi_path : String) : String :=
  let compiler_base_path := intelCompilerBasePath fs oneapi_path
  let standard_lib_paths :=
    [oneapi_path ++ "/compiler/latest/lib",
     oneapi_path ++ "/compiler/latest/linux/lib",
     oneapi_path ++ "/compiler/latest/linux/lib/x64",
     oneapi_path ++ "/mkl/latest/lib/intel64",
     oneapi_path ++ "/tbb/latest/lib/intel64/gcc4.8"] ++
    [pparent compiler_base_path ++ "/lib",
     pparent compiler_base_path ++ "/lib/x64"]
  let lib_paths := standard_lib_paths.filter fs.pathExists
  String.intercalate " " (lib_paths.map (fun p => "-L" ++ p))

/-- The `CPPFLAGS` value built from the include paths that exist on disk
(lines 622–644). -/
def intelCppflags (fs : FS) (oneapi_path : String) : String :=
  let compiler_base_path := intelCompilerBasePath fs oneapi_path
  let standard_include_paths :=
    [oneapi_path ++ "/compiler/latest/include",
     oneapi_path ++ "/compiler/latest/linux/include",
     oneapi_path ++ "/mkl/latest/include",
     oneapi_path ++ "/tbb/latest/include"] ++
    [pparent compiler_base_path ++ "/include"]
  let include_paths := standard_include_paths.filter fs.pathExists
  String.intercalate " " (include_paths.map (fun p => "-I" ++ p))

/-- `generate_intel_config_additions` (utils.py lines 523–690).  The suite
list is fixed (line 590) and filtered to the floating-point suites
(line 650); only those produce directives. -/
def generate_intel_config_additions (fs : FS) (oneapi_path : String) :
    List String :=
  let suites := ["intrate", "intspeed", "fprate", "fpspeed"]
  let fp_suites := suites.filter (fun s => s = "fprate" ∨ s = "fpspeed")
  fp_suites.foldl
    (fun config_additions suite =>
      config_additions ++
        intelSuiteBlock suite (intelCc fs oneapi_path) (intelCxx fs oneapi_path)
          (intelFc fs oneapi_path) (intelLdflags fs oneapi_path)
          (intelCppflags fs oneapi_path))
    []

/-! ### `generate_config_from_template` (utils.py lines 693–928) -/

/-- The template's label line (line 737). -/
def labelOld : String :=
  "%   define label \"mytest\"           # (2)      Use a label meaningful to *you*."

/-- The rewritten label line (line 738). -/
def labelNew : String :=
  "%   define label \"specer\"           # (2)      Use a label meaningful to *you*."

/-- The commented `GCCge10` directive (line 804). -/
def gccge10Old : String :=
  "#%define GCCge10  # EDIT: remove the '#' from column 1 if using GCC 10 or later"

/-- The uncommented `GCCge10` directive (lines 805–807). -/
def gccge10New : String :=
  "%define GCCge10  # EDIT: remove the '#' from column 1 if using GCC 10 or later (auto-detected)"

/-- The template's `gcc_dir` line (line 815). -/
def gccDirOld : String :=
  "%   define  gcc_dir        \"/opt/rh/devtoolset-9/root/usr\"  # EDIT (see above)"

/-- The rewritten `gcc_dir` line (line 816). -/
def gccDirNew (gcc_path : String) : String :=
  "%   define  gcc_dir        \"" ++ gcc_path ++ "\"  # EDIT (see above) (auto-detected)"

/-- The template's `tune` line (line 828). -/
def tuneOld : String :=
  "tune                 = base,peak  # EDIT if needed: set to \"base\" for old GCC."

/-- The rewritten `tune` line (line 829). -/
def tuneNew (tune_value : String) : String :=
  "tune                 = " ++ tune_value ++
    "  # EDIT if needed: set to \"base\" for old GCC. (auto-set)"

/-- The `tune_mapping` dict (line 825). -/
def tuneMapping : List (String × String) :=
  [("base", "base"), ("peak", "peak"), ("all", "base,peak")]

/-- The template's `copies` line (line 906). -/
def copiesOld : String :=
  "   copies           = 1   # EDIT to change number of copies (see above)"

/-- The rewritten `copies` line (lines 907/914). -/
def copiesNew (n : String) : String :=
  "   copies           = " ++ n ++ "   # EDIT to change number of copies (see above)"

/-- The `insertion_patterns` list (lines 875–882). -/
def insertionPatterns : List String :=
  ["intrate=base:", "intspeed=base:", "fprate=base:", "fpspeed=base:",
   "intrate,fprate=base:", "intspeed,fpspeed=base:"]

/-- Insert `s` into `content` at character index `i`. -/
def insertAt (content : String) (i : Nat) (s : String) : String :=
  ⟨content.data.take i ++ s.data ++ content.data.drop i⟩

/-- Processing of one `section:key=value` entry of `config_add`
(utils.py lines 834–899).  Malformed entries are skipped. -/
def applyConfigAdd (content : String) (addition : String) : String :=
  match pySplit1 addition ":" with
  | none => content
  | some (section_part, config_part) =>
    match pySplit1 config_part "=" with
    | none => content
    | some (key, value) =>
      let section_part := pyStrip section_part
      let key := pyStrip key
      let value := pyStrip value
      let section_header := section_part ++ ":"
      let config_line := "      " ++ padTo15 key ++ " = " ++ value
      let section_content := section_header ++ "\n" ++ config_line
      if pyContains content section_header then
        match pyFind content section_header with
        | some section_index =>
          match pyFindFrom content "\n" section_index with
          | some line_end => insertAt content line_end ("\n" ++ config_line)
          | none => content
        | none => content
      else
        match insertionPatterns.find? (fun pat => pyContains content pat) with
        | some pat => pyReplace content pat (section_content ++ "\n\n" ++ pat)
        | none => content ++ "\n\n" ++ section_content ++ "\n"

/-- The host facts `generate_config_from_template` consults: the `SPEC_PATH`
environment variable, template existence and content, the compiler
detection results, `os.cpu_count()`, and the temporary-file creation
(whose failure is an exception). -/
structure GenEnv where
  specPathEnv : Option String
  pathExists : String → Bool
  readF : String → Except PyErr String
  detectOneapi : Option String
  intelEnvVars : List (String × String)
  validIntel : Bool
  gccVersion : Option Nat
  gccPath : Option String
  cpuCount : Option Nat
  fs : FS
  mkTemp : String → Except PyErr String

/-- The keyword arguments of `generate_config_from_template`
(utils.py lines 693–699), with the source's defaults. -/
structure GenArgs where
  cores : Option Nat := none
  spec_root : Option String := none
  tune : Option String := none
  config_add : Option (List String) := none
  compiler : Option String := none

/-- The body of `generate_config_from_template`'s `try` block
(utils.py lines 717–924): `.ok none` is an early `return None`, `.error`
is an escaping exception. -/
def genBody (env : GenEnv) (a : GenArgs) : Except PyErr (Option String) := do
  let spec_path? : Option String :=
    match a.spec_root with
    | some root => some root
    | none =>
      match env.specPathEnv with
      | some p => if p = "" then none else some p
      | none => none
  match spec_path? with
  | none => pure none
  | some spec_path =>
  let template_path := spec_path ++ "/config/Example-gcc-linux-x86.cfg"
  if !env.pathExists template_path then
    pure none
  else do
    let template_content ← env.readF template_path
    let template_content := pyReplace template_content labelOld labelNew
    -- compiler auto-detection (lines 742–756); the Python truthiness of the
    -- `compiler` argument treats an empty string like `None`
    let effective : String :=
      match a.compiler with
      | some c =>
        if c ≠ "" then c
        else
          match env.detectOneapi, env.gccPath with
          | some _, _ => "intel"
          | none, _ => "gcc"
      | none =>
        match env.detectOneapi, env.gccPath with
        | some _, _ => "intel"
        | none, _ => "gcc"
    -- Intel oneAPI handling (lines 759–796)
    let step : String × Option (List String) :=
      if effective = "intel" ∨ effective = "oneapi" then
        match env.detectOneapi with
        | some oneapi_path =>
          let effective' :=
            if env.intelEnvVars ≠ [] ∧ (dictGet env.intelEnvVars "PATH").isSome then
              if env.validIntel then effective else "gcc"
            else "gcc"
          if effective' = "intel" ∨ effective' = "oneapi" then
            let intel_additions := generate_intel_config_additions env.fs oneapi_path
            (effective', some ((a.config_add.getD []) ++ intel_additions))
          else (effective', a.config_add)
        | none => ("gcc", a.config_add)
      else (effective, a.config_add)
    let effective := step.1
    let config_add := step.2
    -- GCC-specific edits (lines 799–820)
    let template_content :=
      if effective = "gcc" then
        let tc :=
          match env.gccVersion with
          | some v =>
            if v ≠ 0 ∧ 10 ≤ v then pyReplace template_content gccge10Old gccge10New
            else template_content
          | none => template_content
        match env.gccPath with
        | some gp => pyReplace1 tc gccDirOld (gccDirNew gp)
        | none => tc
      else template_content
    -- tune substitution (lines 823–830)
    let template_content :=
      match a.tune with
      | some t => pyReplace template_content tuneOld (tuneNew ((dictGet tuneMapping t).getD t))
      | none => template_content
    -- custom config additions (lines 833–899); `if config_add:` is Python
    -- truthiness, so an empty list is skipped like `None`
    let template_content :=
      match config_add with
      | some adds => if adds ≠ [] then adds.foldl applyConfigAdd template_content
                     else template_content
      | none => template_content
    -- copies substitution (lines 901–915)
    let template_content :=
      match a.cores with
      | some c => pyReplace template_content copiesOld (copiesNew (toString c))
      | none =>
        let default_cores :=
          match env.cpuCount with
          | some n => if n = 0 then 4 else n
          | none => 4
        pyReplace template_content copiesOld (copiesNew (toString default_cores))
    -- temporary config file (lines 918–924)
    let temp_file_name ← env.mkTemp template_content
    pure (some temp_file_name)

/-- `generate_config_from_template` (utils.py lines 693–928): the whole body
runs inside `try: … except Exception: return None`. -/
def generate_config_from_template (env : GenEnv) (a : GenArgs) : Option String :=
  match genBody env a with
  | .ok r => r
  | .error _ => none

/-- The arguments with which `update_command` (commands/update.py lines
56–62) invokes `build_runcpu_command`: `action="update"`, no benchmarks, an
empty config, the resolved `spec_root`, and the user's verbosity. -/
def updateCommandArgs (spec_root : String) (verbose : Bool) : RuncpuArgs :=
  { action := "update", benchmarks := [], config := "",
    spec_root := some spec_root, verbose := verbose }

/-- What the `detailed_ratio` dispatch does to the record: store the parsed
value under `key` (creating the per-benchmark dict if needed), where the
caller passes the normalized key. -/
def recordRatio (d : ResultData) (key : String) (q : Dec) : ResultData :=
  let entry := (dictGet d.benchmark_results key).getD []
  { d with benchmark_results := dictSet d.benchmark_results key (dictSet entry "ratio" (.num q)) }

/-- A record already holding a non-zero ratio for `999.bench` (C3 witness). -/
def c3d0 : ResultData := ⟨"x", [], [], [("999.bench", [("ratio", .num ⟨25, 1⟩)])]⟩

/-- The same record with the warning attached (C3 witness). -/
def c3d1 : ResultData :=
  ⟨"x", [], [], [("999.bench", [("ratio", .num ⟨25, 1⟩), ("warning", .str "m")])]⟩

/-- A filesystem on which nothing exists (C8 witness). -/
def fsEmpty : FS := ⟨fun _ => false, fun _ => []⟩

/-- A host with no template, no compilers, failing reads (C9 witness). -/
def genEnvNoTemplate : GenEnv :=
  { specPathEnv := none, pathExists := fun _ => false,
    readF := fun _ => .error .valueError, detectOneapi := none,
    intelEnvVars := [], validIntel := false, gccVersion := none,
    gccPath := none, cpuCount := none, fs := fsEmpty,
    mkTemp := fun _ => .ok "/tmp/specer_generated_x.cfg" }

/-- The same host but with every path existing, so reading is attempted and
fails (C9 witness). -/
def genEnvReadFails : GenEnv := { genEnvNoTemplate with pathExists := fun _ => true }

/-- Arguments selecting an explicit SPEC root (C9 witness). -/
def genArgsRoot : GenArgs := { spec_root := some "/spec" }

/-! ## Theorems for the claims -/

/-- **C6.**  Evaluation of `convert_benchmark_names` at the failing alias:
`"cactuBSSN"` is an alias in `BENCHMARK_MAPPING`, yet none of the three
preference modes converts it — the lookup lower-cases the probe
(`benchmark.lower()`) but the stored key is mixed-case, so the entry is
unreachable and the alias passes through unchanged.  Every other (all
lower-case) alias behaves as the claim states. -/
theorem c6_convert_alias_eval :
    ("cactuBSSN", "607.cactuBSSN_s", "507.cactuBSSN_r") ∈ BENCHMARK_MAPPING ∧
    convert_benchmark_names ["cactuBSSN"] true false = ["cactuBSSN"] ∧
    convert_benchmark_names ["cactuBSSN"] false true = ["cactuBSSN"] ∧
    convert_benchmark_names ["cactuBSSN"] false false = ["cactuBSSN"] ∧
    (∀ e ∈ BENCHMARK_MAPPING, e.1 ≠ "cactuBSSN" →
      convert_benchmark_names [e.1] true false = [e.2.1] ∧
      convert_benchmark_names [e.1] false true = [e.2.2] ∧
      convert_benchmark_names [e.1] false false = [e.2.1]) := by
  refine ⟨by decide, by decide, by decide, by decide, by decide⟩

/-- **C7 (counterexample).**  The claim's reading — every token containing
`_s`/`speed` counts as a speed signal *and* every token containing
`_r`/`rate` counts as a rate signal, case-insensitively — disagrees with
the code: the code classifies each token with an `if`/`elif` (speed wins,
a token is never counted twice), and its `_s`/`_r` checks are
case-sensitive.  `["rate_s"]` exposes the exclusive counting and `["_S"]`
the case-sensitivity. -/
theorem c7_detect_suite_preference_cex :
    detect_suite_preference ["rate_s"] = (true, false) ∧
    claimSuitePreference ["rate_s"] = (false, false) ∧
    detect_suite_preference ["_S"] = (false, false) ∧
    claimSuitePreference ["_S"] = (true, false) := by
  refine ⟨by decide, by decide, by decide, by decide⟩

/-- The counting loop of `detect_suite_preference` adds, over any starting
counts, exactly the number of tokens classified speed (resp. rate) by the
exclusive per-token classification. -/
theorem detect_suite_counts (benchmarks : List String) (sc rc : Nat) :
    benchmarks.foldl
      (fun (c : Nat × Nat) benchmark =>
        if pyContains benchmark "_s" || pyContains (pyLower benchmark) "speed" then
          (c.1 + 1, c.2)
        else if pyContains benchmark "_r" || pyContains (pyLower benchmark) "rate" then
          (c.1, c.2 + 1)
        else c)
      (sc, rc) =
    (sc + benchmarks.countP codeSpeedSignal, rc + benchmarks.countP codeRateSignal) := by
  induction benchmarks generalizing sc rc with
  | nil => simp
  | cons b bs ih =>
    simp only [List.foldl_cons, List.countP_cons, codeSpeedSignal, codeRateSignal]
    by_cases hs : (pyContains b "_s" || pyContains (pyLower b) "speed") = true
    · simp only [hs, if_pos, ih]
      simp [codeSpeedSignal, codeRateSignal, hs]
      omega
    · simp only [Bool.not_eq_true] at hs
      simp only [hs, Bool.false_eq_true, if_false]
      by_cases hr : (pyContains b "_r" || pyContains (pyLower b) "rate") = true
      · simp only [hr, if_pos, ih]
        simp [codeSpeedSignal, codeRateSignal, hs, hr]
        omega
      · simp only [Bool.not_eq_true] at hr
        simp only [hr, Bool.false_eq_true, if_false, ih]
        simp [codeSpeedSignal, codeRateSignal, hs, hr]

/-- **C7 (amended).**  `detect_suite_preference` counts each token
*exclusively*: a token containing `_s` (case-sensitive) or `speed`
(case-insensitive) is a speed signal; otherwise a token containing `_r`
(case-sensitive) or `rate` (case-insensitive) is a rate signal; the result
is the pair of strict-majority comparisons.  The claim's three examples
hold. -/
theorem c7_detect_suite_preference_amended :
    (∀ benchmarks, detect_suite_preference benchmarks = amendedSuitePreference benchmarks) ∧
    detect_suite_preference ["602.gcc_s", "intspeed"] = (true, false) ∧
    detect_suite_preference ["502.gcc_r", "fprate"] = (false, true) ∧
    detect_suite_preference ["602.gcc_s", "519.lbm_r"] = (false, false) := by
  refine ⟨?_, by decide, by decide, by decide⟩
  intro benchmarks
  unfold detect_suite_preference amendedSuitePreference
  rw [detect_suite_counts]
  simp

/-- **C10 (counterexample).**  For `action=update` the builder does *not*
produce just the runcpu path, `--update` and verbosity tokens: it always
appends the default output-format tokens `--output_format rsf,pdf`
(utils.py lines 997–1008 run for every action). -/
theorem c10_update_command_cex :
    build_runcpu_command (updateCommandArgs "/spec" false) (fun _ => true) =
      .ok ["/spec/bin/runcpu", "--update", "--output_format", "rsf,pdf"] ∧
    build_runcpu_command (updateCommandArgs "/spec" true) (fun _ => true) =
      .ok ["/spec/bin/runcpu", "--update", "--output_format", "rsf,pdf", "--verbose=5"] ∧
    (["/spec/bin/runcpu", "--update", "--output_format", "rsf,pdf"] : List String) ≠
      ["/spec/bin/runcpu", "--update"] ∧
    (["/spec/bin/runcpu", "--update", "--output_format", "rsf,pdf", "--verbose=5"] : List String) ≠
      ["/spec/bin/runcpu", "--update", "--verbose=5"] := by
  refine ⟨by rfl, by rfl, by decide, by decide⟩

/-- Two strings of different lengths are different. -/
theorem strNeOfLen {a b : String} (h : a.data.length ≠ b.data.length) : a ≠ b := by
  intro he
  exact h (by rw [he])

/-- The length of an appended string. -/
theorem strAppendLen (a b : String) : (a ++ b).data.length = a.data.length + b.data.length := by
  obtain ⟨la⟩ := a
  obtain ⟨lb⟩ := b
  show (la ++ lb).length = la.length + lb.length
  exact List.length_append la lb

/-- **C10 (amended).**  For the update command's actual invocation
(`action="update"`, no benchmarks, empty config, any verbosity), the
builder returns the runcpu path, `--update`, the default output-format
tokens `--output_format rsf,pdf`, and `--verbose=5` iff verbose — and the
command contains no `--config`, `--tune`, `--action` or benchmark
tokens. -/
theorem c10_update_command_amended :
    ∀ (exists? : String → Bool) (root : String) (verbose : Bool),
      exists? (root ++ "/bin/runcpu") = true →
      build_runcpu_command (updateCommandArgs root verbose) exists? =
        .ok (([root ++ "/bin/runcpu", "--update", "--output_format", "rsf,pdf"] ++
              (if verbose then ["--verbose=5"] else []))) ∧
      ∀ cmd, build_runcpu_command (updateCommandArgs root verbose) exists? = .ok cmd →
        "--config" ∉ cmd ∧ "--tune" ∉ cmd ∧ "--action" ∉ cmd := by
  intro exists? root verbose h
  have hlit : ("/bin/runcpu" : String).data.length = 11 := by decide
  have hrun : ∀ t : String, t.data.length < 11 → root ++ "/bin/runcpu" ≠ t := by
    intro t ht
    refine strNeOfLen ?_
    rw [strAppendLen, hlit]
    omega
  have h1 : ¬("--config" = root ++ "/bin/runcpu") :=
    fun hx => hrun "--config" (by decide) hx.symm
  have h2 : ¬("--tune" = root ++ "/bin/runcpu") :=
    fun hx => hrun "--tune" (by decide) hx.symm
  have h3 : ¬("--action" = root ++ "/bin/runcpu") :=
    fun hx => hrun "--action" (by decide) hx.symm
  have heq : build_runcpu_command (updateCommandArgs root verbose) exists? =
      .ok (([root ++ "/bin/runcpu", "--update", "--output_format", "rsf,pdf"] ++
            (if verbose then ["--verbose=5"] else []))) := by
    cases verbose <;>
      · simp [build_runcpu_command, updateCommandArgs, h, pyLower, pyLowerList]
        rfl
  refine ⟨heq, ?_⟩
  intro cmd hcmd
  rw [heq] at hcmd
  have hc : cmd = ([root ++ "/bin/runcpu", "--update", "--output_format", "rsf,pdf"] ++
      (if verbose then ["--verbose=5"] else [])) := by
    cases hcmd
    rfl
  subst hc
  cases verbose <;> simp_all [List.mem_append, List.mem_cons]

/-- Witness for C10 (amended): the update invocation at a concrete root with
an existing `runcpu` and `verbose=true`. -/
theorem c10_update_command_witness :
    build_runcpu_command (updateCommandArgs "/spec" true) (fun _ => true) =
      .ok (["/spec/bin/runcpu", "--update", "--output_format", "rsf,pdf"] ++ ["--verbose=5"]) :=
  (c10_update_command_amended (fun _ => true) "/spec" true rfl).1

/-- **C2.**  RSF detailed results are recorded under the first-underscore
normalization: for any matched `detailed_ratio` groups `(bench, v)` with a
well-formed numeric token, the dispatch stores the parsed value under the
key `bench.replace("_", ".", 1)`; and the full parse of the claim's line
`spec.cpu2017.results.648_exchange2_s.base.000.ratio: 12.380557` yields
`benchmark_results["648.exchange2_s"]["ratio"] == 12.380557`. -/
theorem c2_rsf_first_underscore_normalization :
    (∀ (path : String) (d : ResultData) (bench v : String) (q : Dec),
        pyFloatDD v = some q →
        rsfApplyMatch path d "detailed_ratio" [bench, v] =
          .ok (recordRatio d (pyReplace1 bench "_" ".") q)) ∧
    readFileBody "/result/CPU2017.001.test.rsf"
        "spec.cpu2017.results.648_exchange2_s.base.000.ratio: 12.380557" =
      .ok ⟨"/result/CPU2017.001.test.rsf", [], [],
           [("648.exchange2_s", [("ratio", .num ⟨12380557, 6⟩)])]⟩ ∧
    pyReplace1 "648_exchange2_s" "_" "." = "648.exchange2_s" ∧
    Dec.toRat ⟨12380557, 6⟩ = (12380557 : ℚ) / 1000000 := by
  refine ⟨?_, by rfl, by decide, ?_⟩
  · intro path d bench v q hq
    have hps : pyStartsWith "detailed_ratio" "detailed_" = true := by decide
    have hmt : ((pySplit1 "detailed_ratio" "_").map Prod.snd).getD "detailed_ratio" = "ratio" := by
      decide
    simp [rsfApplyMatch, recordRatio, hq, hps, hmt]
  · show (12380557 : ℚ) / (10 : ℚ) ^ 6 = (12380557 : ℚ) / 1000000
    norm_num

/-- Witness for C2: the general normalization statement applied to the
claim's concrete benchmark id and value. -/
theorem c2_witness :
    rsfApplyMatch "x.rsf" (⟨"x.rsf", [], [], []⟩ : ResultData) "detailed_ratio"
        ["648_exchange2_s", "12.380557"] =
      .ok ⟨"x.rsf", [], [], [("648.exchange2_s", [("ratio", .num ⟨12380557, 6⟩)])]⟩ := by
  have h := c2_rsf_first_underscore_normalization.1 "x.rsf"
    (⟨"x.rsf", [], [], []⟩ : ResultData) "648_exchange2_s" "12.380557" ⟨12380557, 6⟩ rfl
  exact h.trans (by rfl)

/-- **C3 (counterexample).**  A benchmark with an `errors<N>:` line and no
recorded ratio need not be absent from `benchmark_results`: if any other
detailed field (here `reported_sec`, stored as `time`) was recorded, the
benchmark stays in the map (without a warning), contradicting the claim's
"entirely absent from benchmark_results". -/
theorem c3_error_line_cex :
    readFileBody "/r/x.rsf"
        "spec.cpu2017.results.999_bench.base.000.reported_sec: 5.0\nspec.cpu2017.errors1: 999.bench (ref) run failed" =
      .ok ⟨"/r/x.rsf", [], [], [("999.bench", [("time", .num ⟨50, 1⟩)])]⟩ := by
  rfl

/-- **C3 (amended).**  The error-line dispatch attaches a warning *only if*
the benchmark already has a recorded truthy (non-zero) ratio, and otherwise
leaves the record unchanged; a benchmark whose only evidence is an error
line is entirely absent; one with other recorded fields but no ratio stays
present without a warning; with a ratio, the warning is attached. -/
theorem c3_error_only_with_ratio :
    (∀ (path : String) (d : ResultData) (bench msg : String) (d' : ResultData),
        rsfApplyMatch path d "benchmark_error" [bench, msg] = .ok d' →
        d' = d ∨
        ∃ entry, dictGet d.benchmark_results bench = some entry ∧
          pyTruthyOpt (dictGet entry "ratio") = true ∧
          d'.benchmark_results = dictSet d.benchmark_results bench (dictSet entry "warning" (.str msg))) ∧
    readFileBody "/r/x.rsf" "spec.cpu2017.errors1: 999.bench (ref) run failed" =
      .ok ⟨"/r/x.rsf", [], [], []⟩ ∧
    readFileBody "/r/x.rsf"
        "spec.cpu2017.results.999_bench.base.000.reported_sec: 5.0\nspec.cpu2017.errors1: 999.bench (ref) run failed" =
      .ok ⟨"/r/x.rsf", [], [], [("999.bench", [("time", .num ⟨50, 1⟩)])]⟩ ∧
    readFileBody "/r/x.rsf"
        "spec.cpu2017.results.999_bench.base.000.ratio: 2.5\nspec.cpu2017.errors1: 999.bench (ref) flagged" =
      .ok ⟨"/r/x.rsf", [], [],
           [("999.bench", [("ratio", .num ⟨25, 1⟩), ("warning", .str "flagged")])]⟩ := by
  refine ⟨?_, by rfl, by rfl, by rfl⟩
  intro path d bench msg d' hstep
  have hps : pyStartsWith "benchmark_error" "detailed_" = false := by decide
  rcases hdg : dictGet d.benchmark_results bench with _ | entry <;>
    simp [rsfApplyMatch, hps, hdg] at hstep
  · left
    exact hstep.symm
  · by_cases htr : pyTruthyOpt (dictGet entry "ratio") = true
    · rw [if_pos htr] at hstep
      cases hstep
      right
      exact ⟨entry, rfl, htr, rfl⟩
    · rw [if_neg htr] at hstep
      cases hstep
      left
      rfl

/-- Witness for C3 (amended): applying the error dispatch to a record that
already holds a non-zero ratio yields the warned record. -/
theorem c3_witness :
    c3d1 = c3d0 ∨
    ∃ entry, dictGet c3d0.benchmark_results "999.bench" = some entry ∧
      pyTruthyOpt (dictGet entry "ratio") = true ∧
      c3d1.benchmark_results = dictSet c3d0.benchmark_results "999.bench" (dictSet entry "warning" (.str "m")) :=
  c3_error_only_with_ratio.1 "x" c3d0 "999.bench" "m" c3d1 rfl

/-- **C4 (counterexample).**  `parse_result_files` has no `try`/`except`:
a score line whose numeric token is malformed (`[\d.]+` matches `...`, but
`float("...")` raises) makes the function raise `ValueError` to its caller
instead of degrading to a partial result or `None`. -/
theorem c4_parse_result_files_raises :
    parse_result_files "Est. SPECrate2017_fp_base = ..." = .error .valueError := by
  rfl

/-- **C4 (amended).**  `read_result_file` is exception-safe: once a path is
resolved, any error in reading or parsing (for instance `float(".")` on a
malformed suite-mean token) is caught by its `try`/`except` and collapses
to `None`, successes surface unchanged, and an unresolved relative path
gives `None`; `parse_result_files`, by contrast, is *not* wrapped and
propagates `ValueError` on a malformed numeric token. -/
theorem c4_error_tolerance :
    (∀ (exists? : String → Bool) (readF : String → Except PyErr String)
        (file_path spec_root p : String) (e : PyErr),
        resolveResultPath exists? file_path spec_root = some p →
        (do let content ← readF p
            readFileBody p content : Except PyErr ResultData) = .error e →
        read_result_file exists? readF file_path spec_root = none) ∧
    (∀ (exists? : String → Bool) (readF : String → Except PyErr String)
        (file_path spec_root p : String) (d : ResultData),
        resolveResultPath exists? file_path spec_root = some p →
        (do let content ← readF p
            readFileBody p content : Except PyErr ResultData) = .ok d →
        read_result_file exists? readF file_path spec_root = some d) ∧
    (∀ (exists? : String → Bool) (readF : String → Except PyErr String)
        (file_path spec_root : String),
        resolveResultPath exists? file_path spec_root = none →
        read_result_file exists? readF file_path spec_root = none) ∧
    readFileBody "/r/x.rsf" "spec.cpu2017.basemean: ." = .error .valueError ∧
    read_result_file (fun _ => true) (fun _ => .ok "spec.cpu2017.basemean: .")
      "/r/x.rsf" "/spec" = none ∧
    parse_result_files "Est. SPECrate2017_fp_base = ..." = .error .valueError := by
  refine ⟨?_, ?_, ?_, by rfl, by rfl, by rfl⟩
  · intro exists? readF file_path spec_root p e h1 h2
    unfold read_result_file
    rw [h1]
    show readAndParse readF p = none
    unfold readAndParse
    rw [h2]
  · intro exists? readF file_path spec_root p d h1 h2
    unfold read_result_file
    rw [h1]
    show readAndParse readF p = some d
    unfold readAndParse
    rw [h2]
  · intro exists? readF file_path spec_root h1
    unfold read_result_file
    rw [h1]

/-- Witness for C4 (amended): the internal `ValueError` raised by
`float(".")` is caught and `read_result_file` returns `None`. -/
theorem c4_witness :
    read_result_file (fun _ => true) (fun _ => .ok "spec.cpu2017.basemean: .")
      "/r/x.rsf" "/spec" = none :=
  c4_error_tolerance.1 (fun _ => true) (fun _ => .ok "spec.cpu2017.basemean: .")
    "/r/x.rsf" "/spec" "/r/x.rsf" .valueError rfl rfl

/-- **C5 (counterexample).**  A score line with the full
`_<tuning>_<metric>` name populates *both* maps: the coarser
`metric_line` pattern `SPEC\w+\d+_\w+` also matches the full name
(`\w` includes underscores), so the same entry lands in `metrics` too —
the claim's "populates only the scores map" / "the two destinations are
disjoint" is false. -/
theorem c5_full_score_line_cex :
    extractResultInfo "Est. SPECrate2017_fp_base = 123.45" =
      .ok ⟨[], [("SPECrate2017_fp_base", ⟨12345, 2⟩)],
           [("SPECrate2017_fp_base", ⟨12345, 2⟩)], none⟩ := by
  rfl

/-- **C5 (amended).**  A full-shape score line populates `scores` and also
populates `metrics` under the same name (the coarser pattern matches the
full name as well); a metric-only line populates only `metrics` — the
full-shape pattern genuinely fails on it. -/
theorem c5_score_and_metric_lines :
    extractResultInfo "Est. SPECrate2017_fp_base = 123.45" =
      .ok ⟨[], [("SPECrate2017_fp_base", ⟨12345, 2⟩)],
           [("SPECrate2017_fp_base", ⟨12345, 2⟩)], none⟩ ∧
    extractResultInfo "Est. SPECrate2017_fp = 12.5" =
      .ok ⟨[], [], [("SPECrate2017_fp", ⟨125, 1⟩)], none⟩ ∧
    reSearch score_line_re "Est. SPECrate2017_fp = 12.5" = none ∧
    (reSearch metric_line_re "Est. SPECrate2017_fp_base = 123.45").isSome = true := by
  refine ⟨by rfl, by rfl, by rfl, by rfl⟩

/-- The final truthiness test of `parse_result_files` (lines 79–85), as a
proposition: `metrics` does not participate, and `log_file` must be a
non-empty string. -/
theorem infoTruthy_iff (info : ResultInfo) :
    infoTruthy info = true ↔
      (info.result_files ≠ [] ∨ info.scores ≠ [] ∨
        ∃ s, info.log_file = some s ∧ s ≠ "") := by
  unfold infoTruthy
  rcases info with ⟨rf, sc, me, lf⟩
  rcases lf with _ | s <;> simp [List.isEmpty_iff, or_assoc]

/-- **C1.**  `parse_result_files` returns a (non-null) record exactly when
the extracted record has a non-empty `result_files` list, a non-empty
`scores` map, or a non-empty `log_file`; in particular an input that only
populates `metrics` yields `None`, not an empty record. -/
theorem c1_parse_result_files_presence :
    (∀ (output : String) (info : ResultInfo),
        extractResultInfo output = .ok info →
        (parse_result_files output = .ok (some info) ↔
          (info.result_files ≠ [] ∨ info.scores ≠ [] ∨
            ∃ s, info.log_file = some s ∧ s ≠ ""))) ∧
    parse_result_files "Est. SPECrate2017_fp = 12.5" = .ok none ∧
    extractResultInfo "Est. SPECrate2017_fp = 12.5" =
      .ok ⟨[], [], [("SPECrate2017_fp", ⟨125, 1⟩)], none⟩ := by
  refine ⟨?_, by rfl, by rfl⟩
  intro output info h
  unfold parse_result_files
  rw [h, ← infoTruthy_iff]
  by_cases ht : infoTruthy info = true
  · simp [Except.map, ht]
  · rw [Bool.not_eq_true] at ht
    simp [Except.map, ht]

/-- Witness for C1: an input with a score line satisfies the presence
condition and parses to the (non-null) extracted record. -/
theorem c1_witness :
    parse_result_files "Est. SPECrate2017_fp_base = 123.45" =
      .ok (some ⟨[], [("SPECrate2017_fp_base", ⟨12345, 2⟩)],
                 [("SPECrate2017_fp_base", ⟨12345, 2⟩)], none⟩) :=
  (c1_parse_result_files_presence.1 "Est. SPECrate2017_fp_base = 123.45"
      ⟨[], [("SPECrate2017_fp_base", ⟨12345, 2⟩)],
       [("SPECrate2017_fp_base", ⟨12345, 2⟩)], none⟩ rfl).mpr
    (Or.inr (Or.inl (by decide)))

/-- The character data of an appended string. -/
theorem strDataAppend (a b : String) : (a ++ b).data = a.data ++ b.data := by
  obtain ⟨la⟩ := a
  obtain ⟨lb⟩ := b
  rfl

/-- Every directive emitted by the per-suite loop body starts with
`<suite>=`. -/
theorem intelSuiteBlock_pfx (suite cc cxx : String) (fc : Option String)
    (ld cpp : String) :
    ∀ d ∈ intelSuiteBlock suite cc cxx fc ld cpp,
      ∃ r, d.data = suite.data ++ '=' :: r := by
  have key : ∀ (litS x : String) (rest : List Char), litS.data = '=' :: rest →
      ∃ r, ((suite ++ litS) ++ x).data = suite.data ++ '=' :: r := by
    intro litS x rest hlit
    refine ⟨rest ++ x.data, ?_⟩
    rw [strDataAppend, strDataAppend, hlit, List.append_assoc]
    rfl
  have key2 : ∀ (litS : String) (rest : List Char), litS.data = '=' :: rest →
      ∃ r, (suite ++ litS).data = suite.data ++ '=' :: r := by
    intro litS rest hlit
    exact ⟨rest, by rw [strDataAppend, hlit]⟩
  intro d hd
  unfold intelSuiteBlock at hd
  rcases List.mem_append.mp hd with hd | hd
  · rcases List.mem_append.mp hd with hd | hd
    · rcases List.mem_append.mp hd with hd | hd
      · rcases List.mem_append.mp hd with hd | hd
        · simp only [List.mem_cons, List.not_mem_nil, or_false] at hd
          rcases hd with h | h | h | h | h <;> subst h
          · exact key "=base:CC=" cc _ rfl
          · exact key "=base:CXX=" cxx _ rfl
          · exact key "=base:OPTIMIZE=" intelOptimize _ rfl
          · exact key "=base:COPTIMIZE=" intelCoptimize _ rfl
          · exact key "=base:CXXOPTIMIZE=" intelCxxoptimize _ rfl
        · rcases fc with _ | fcp
          · simp at hd
          · simp only [List.mem_cons, List.not_mem_nil, or_false] at hd
            rcases hd with h | h <;> subst h
            · exact key "=base:FC=" fcp _ rfl
            · exact key "=base:FOPTIMIZE=" intelFoptimize _ rfl
      · by_cases hld : ld ≠ ""
        · rw [if_pos hld] at hd
          simp only [List.mem_singleton] at hd
          subst hd
          exact key "=base:LDFLAGS=" ld _ rfl
        · rw [if_neg hld] at hd
          simp at hd
    · by_cases hcpp : cpp ≠ ""
      · rw [if_pos hcpp] at hd
        simp only [List.mem_singleton] at hd
        subst hd
        exact key "=base:CPPFLAGS=" cpp _ rfl
      · rw [if_neg hcpp] at hd
        simp at hd
  · simp only [List.mem_singleton] at hd
    subst hd
    exact key2 "=peak: basepeak = yes" _ rfl

/-- A string starting with `fprate=` starts with neither `intrate` nor
`intspeed`. -/
theorem fprate_pfx_not_int (d : String) (r : List Char)
    (hd : d.data = ("fprate" : String).data ++ '=' :: r) :
    pyStartsWith d "intrate" = false ∧ pyStartsWith d "intspeed" = false := by
  unfold pyStartsWith
  rw [hd]
  exact ⟨rfl, rfl⟩

/-- A string starting with `fpspeed=` starts with neither `intrate` nor
`intspeed`. -/
theorem fpspeed_pfx_not_int (d : String) (r : List Char)
    (hd : d.data = ("fpspeed" : String).data ++ '=' :: r) :
    pyStartsWith d "intrate" = false ∧ pyStartsWith d "intspeed" = false := by
  unfold pyStartsWith
  rw [hd]
  exact ⟨rfl, rfl⟩

/-- **C8.**  For every filesystem state and oneAPI path, the Intel
config-additions generator emits directives only for the floating-point
suites: every emitted entry starts with `fprate=` or `fpspeed=`, both
suites receive their base-tuning `CC` directive and their
`peak: basepeak = yes` directive, and no entry starts with `intrate` or
`intspeed`. -/
theorem c8_intel_fp_only :
    ∀ (fs : FS) (oneapi_path : String),
      (∀ d ∈ generate_intel_config_additions fs oneapi_path,
        (∃ r, d.data = ("fprate" : String).data ++ '=' :: r) ∨
        (∃ r, d.data = ("fpspeed" : String).data ++ '=' :: r)) ∧
      "fprate=peak: basepeak = yes" ∈ generate_intel_config_additions fs oneapi_path ∧
      "fpspeed=peak: basepeak = yes" ∈ generate_intel_config_additions fs oneapi_path ∧
      ("fprate=base:CC=" ++ intelCc fs oneapi_path) ∈
        generate_intel_config_additions fs oneapi_path ∧
      ("fpspeed=base:CC=" ++ intelCc fs oneapi_path) ∈
        generate_intel_config_additions fs oneapi_path ∧
      (∀ d ∈ generate_intel_config_additions fs oneapi_path,
        pyStartsWith d "intrate" = false ∧ pyStartsWith d "intspeed" = false) := by
  intro fs oneapi_path
  have hgen : generate_intel_config_additions fs oneapi_path =
      ([] ++ intelSuiteBlock "fprate" (intelCc fs oneapi_path)
          (intelCxx fs oneapi_path) (intelFc fs oneapi_path)
          (intelLdflags fs oneapi_path) (intelCppflags fs oneapi_path)) ++
        intelSuiteBlock "fpspeed" (intelCc fs oneapi_path)
          (intelCxx fs oneapi_path) (intelFc fs oneapi_path)
          (intelLdflags fs oneapi_path) (intelCppflags fs oneapi_path) := rfl
  have hbp : ∀ (suite cc cxx : String) (fc : Option String) (ld cpp : String),
      (suite ++ "=peak: basepeak = yes") ∈ intelSuiteBlock suite cc cxx fc ld cpp := by
    intro suite cc cxx fc ld cpp
    unfold intelSuiteBlock
    simp
  have hcc : ∀ (suite cc cxx : String) (fc : Option String) (ld cpp : String),
      (suite ++ "=base:CC=" ++ cc) ∈ intelSuiteBlock suite cc cxx fc ld cpp := by
    intro suite cc cxx fc ld cpp
    unfold intelSuiteBlock
    simp
  have hpfx : ∀ d ∈ generate_intel_config_additions fs oneapi_path,
      (∃ r, d.data = ("fprate" : String).data ++ '=' :: r) ∨
      (∃ r, d.data = ("fpspeed" : String).data ++ '=' :: r) := by
    intro d hd
    rw [hgen] at hd
    rcases List.mem_append.mp hd with h | h
    · rw [List.nil_append] at h
      exact Or.inl (intelSuiteBlock_pfx _ _ _ _ _ _ d h)
    · exact Or.inr (intelSuiteBlock_pfx _ _ _ _ _ _ d h)
  refine ⟨hpfx, ?_, ?_, ?_, ?_, ?_⟩
  · rw [hgen]
    exact List.mem_append.mpr (Or.inl (List.mem_append.mpr (Or.inr (hbp _ _ _ _ _ _))))
  · rw [hgen]
    exact List.mem_append.mpr (Or.inr (hbp _ _ _ _ _ _))
  · rw [hgen]
    exact List.mem_append.mpr (Or.inl (List.mem_append.mpr (Or.inr (hcc _ _ _ _ _ _))))
  · rw [hgen]
    exact List.mem_append.mpr (Or.inr (hcc _ _ _ _ _ _))
  · intro d hd
    rcases hpfx d hd with ⟨r, hr⟩ | ⟨r, hr⟩
    · exact fprate_pfx_not_int d r hr
    · exact fpspeed_pfx_not_int d r hr

/-- Witness for C8: on an empty filesystem, the first emitted directive is
`fprate=base:CC=icx`, and the theorem classifies it as an `fprate=` entry. -/
theorem c8_witness :
    (∃ r, ("fprate=base:CC=icx" : String).data = ("fprate" : String).data ++ '=' :: r) ∨
    (∃ r, ("fprate=base:CC=icx" : String).data = ("fpspeed" : String).data ++ '=' :: r) :=
  (c8_intel_fp_only fsEmpty "/opt/intel/oneapi").1 "fprate=base:CC=icx" (by decide)

/-- **C9.**  Config generation never raises: when the template file is
absent under the SPEC root (given explicitly or through the `SPEC_PATH`
environment variable), `generate_config_from_template` returns `none`; and
whenever the body raises any exception, the surrounding
`try`/`except Exception` collapses the call to `none`. -/
theorem c9_config_generation_soft_failure :
    (∀ (env : GenEnv) (a : GenArgs) (root : String),
        a.spec_root = some root →
        env.pathExists (root ++ "/config/Example-gcc-linux-x86.cfg") = false →
        generate_config_from_template env a = none) ∧
    (∀ (env : GenEnv) (a : GenArgs) (root : String),
        a.spec_root = none → env.specPathEnv = some root → root ≠ "" →
        env.pathExists (root ++ "/config/Example-gcc-linux-x86.cfg") = false →
        generate_config_from_template env a = none) ∧
    (∀ (env : GenEnv) (a : GenArgs) (e : PyErr),
        genBody env a = .error e →
        generate_config_from_template env a = none) := by
  refine ⟨?_, ?_, ?_⟩
  · intro env a root hroot hex
    unfold generate_config_from_template genBody
    simp [hroot, hex]
    rfl
  · intro env a root hroot henv hne hex
    unfold generate_config_from_template genBody
    simp [hroot, henv, hne, hex]
    rfl
  · intro env a e herr
    unfold generate_config_from_template
    rw [herr]

/-- Witness for C9: a missing template yields `none`, and a raising read
(the body errors) also yields `none`. -/
theorem c9_witness :
    generate_config_from_template genEnvNoTemplate genArgsRoot = none ∧
    generate_config_from_template genEnvReadFails genArgsRoot = none :=
  ⟨c9_config_generation_soft_failure.1 genEnvNoTemplate genArgsRoot "/spec" rfl rfl,
   c9_config_generation_soft_failure.2.2 genEnvReadFails genArgsRoot .valueError (by rfl)⟩
